import Mathlib

/-!
Shallow embedding of the p2pmmap Linux kernel module (src/p2pmmap.c), a
misc character device that exposes a PCI peer-to-peer memory region to a
single consumer via mmap with demand paging.

Machine integers are modelled as `Nat` (unsigned) or `Int` (C `int`
return statuses), with explicit `% 2 ^ 64` where the C code performs
`unsigned long` arithmetic that can wrap.  Platform primitives
(`virt_to_phys`, `pfn_valid`, `pci_get_domain_bus_and_slot`,
`pci_has_p2pmem`, `pci_alloc_p2pmem`, `misc_register`) are parameters of
the embedding, supplied by an environment structure.
-/

set_option autoImplicit false

namespace P2pmmap

/-- Word size of `unsigned long` on the target platform (x86-64). -/
def U64 : Nat := 2 ^ 64

/-- PAGE_SHIFT on the target platform. -/
def PAGE_SHIFT : Nat := 12

/-- PAGE_SIZE, that is `1 << PAGE_SHIFT`. -/
def PAGE_SIZE : Nat := 2 ^ PAGE_SHIFT

/-- Linux errno EINVAL. -/
def EINVAL : Int := 22

/-- Linux errno EBUSY. -/
def EBUSY : Int := 16

/-- Linux errno ENOMEM. -/
def ENOMEM : Int := 12

/-- Linux errno ENOTSUPP (kernel-internal, 524). -/
def ENOTSUPP : Int := 524

/-- Return value VM_FAULT_SIGBUS of a vm fault handler. -/
def VM_FAULT_SIGBUS : Int := 2

/-!
## Session state (`p2pmmap_open` / `p2pmmap_release`)

The module keeps a single `atomic_t opened` counter inside `struct
p2pmmap`.  `p2pmmap_open` reads it, fails with `-EBUSY` when it is
nonzero, and otherwise increments it; `p2pmmap_release` decrements it
unconditionally and returns 0.  The counter is a C `int`, modelled as
`Int`.  Each function returns the C status together with the new counter
value.
-/

/-- Embedding of `p2pmmap_open`: `if (atomic_read(&pmm.opened)) return
-EBUSY; atomic_inc(&pmm.opened); return 0;`. -/
def p2pmmap_open (opened : Int) : Int × Int :=
  if opened ≠ 0 then (-EBUSY, opened)
  else (0, opened + 1)

/-- Embedding of `p2pmmap_release`: `atomic_dec(&pmm.opened); return 0;`. -/
def p2pmmap_release (opened : Int) : Int × Int :=
  (0, opened - 1)

/-- Run `n` sequential open/close cycles starting from counter state `c`;
returns the final counter and whether every open and every close in the
run returned status 0. -/
def openCloseCycles : Nat → Int → Int × Bool
  | 0, c => (c, true)
  | n + 1, c =>
    let o := p2pmmap_open c
    let r := p2pmmap_release o.2
    let rest := openCloseCycles n r.2
    (rest.1, (o.1 = 0 ∧ r.1 = 0 : Bool) && rest.2)

/-!
## `p2pmmap_mmap`

The handler computes `off = vma->vm_pgoff << PAGE_SHIFT` and
`len = vma->vm_end - vma->vm_start` in `unsigned long` arithmetic
(wrapping modulo `2 ^ 64`), rejects the request with `-ENOMEM` when
`off + len > pmm.size`, and otherwise installs the fault-handler
operations (`vma->vm_ops = &p2pmmap_mmap_ops`).
-/

/-- Result of `p2pmmap_mmap`: the returned status and whether
`vma->vm_ops` was set to the fault-handler operations. -/
structure MmapResult where
  status : Int
  vm_ops_set : Bool
  deriving DecidableEq, Repr

/-- Embedding of `p2pmmap_mmap`.  `size` is `pmm.size`, `vm_pgoff` the
page offset of the vma, `vm_len` the byte length `vm_end - vm_start`;
both are `unsigned long` values below `2 ^ 64`. -/
def p2pmmap_mmap (size vm_pgoff vm_len : Nat) : MmapResult :=
  let off := (vm_pgoff * PAGE_SIZE) % U64
  if (off + vm_len) % U64 > size then
    { status := -ENOMEM, vm_ops_set := false }
  else
    { status := 0, vm_ops_set := true }

/-!
## `p2pmmap_mem_fault`

The fault handler reads `pagenum = vmf->pgoff` (the page index within
the backing object, that is the vma base page offset plus the faulting
page index inside the vma), computes
`pa = virt_to_phys(pmm.p2pmem + (pagenum << PAGE_SHIFT))`, fails with
`VM_FAULT_SIGBUS` when `pa == 0` or when `pfn_valid(pa >> PAGE_SHIFT)`
is false, and otherwise increments the reference count of the page at
that frame (`get_page`) and stores it into `vmf->page`.
-/

/-- Platform primitives used by the fault path.  `virt_to_phys` maps a
kernel virtual address to a physical address, `pfn_valid` says whether a
page frame number has a `struct page`. -/
structure Platform where
  virt_to_phys : Nat → Nat
  pfn_valid : Nat → Bool

/-- Module state `struct p2pmmap`: target device (None models a NULL
`pdev` pointer; the triple is domain, bus, devfn), the `p2pmem` virtual
address (0 models NULL), the region size and the `opened` counter. -/
structure Pmm where
  pdev : Option (Nat × Nat × Nat)
  p2pmem : Nat
  size : Nat
  opened : Int

/-- World visible to the fault handler: the module state, the per-frame
reference counts maintained by the platform, and the `vmf->page` slot of
the fault record. -/
structure FaultWorld where
  pmm : Pmm
  refcount : Nat → Int
  vmfPage : Option Nat

/-- Embedding of `p2pmmap_mem_fault`: returns the handler status and the
world after the handler ran. -/
def p2pmmap_mem_fault (pf : Platform) (w : FaultWorld) (pagenum : Nat) :
    Int × FaultWorld :=
  let pa := pf.virt_to_phys ((w.pmm.p2pmem + (pagenum * PAGE_SIZE) % U64) % U64)
  if pa = 0 then (VM_FAULT_SIGBUS, w)
  else
    let pfn := pa / PAGE_SIZE
    if ¬ pf.pfn_valid pfn then (VM_FAULT_SIGBUS, w)
    else
      (0, { pmm := w.pmm
            refcount := fun q => if q = pfn then w.refcount q + 1 else w.refcount q
            vmfPage := some pfn })

/-- Physical frame backing byte offset `o` of the reserved region: the
frame number of the physical address of the kernel virtual address
`pmm.p2pmem + o` (address arithmetic modulo `2 ^ 64`). -/
def regionFrame (pf : Platform) (p2pmem o : Nat) : Nat :=
  pf.virt_to_phys ((p2pmem + o) % U64) / PAGE_SIZE

/-!
## Locator parsing

The init routine parses the `target_pci_dev` module parameter with
`sscanf(s, "%x:%x:%x.%x", ...)` and, when that converts fewer than 4
fields, `sscanf(s, "%x:%x.%x", ...)`.  The kernel `vsscanf` is modelled
for exactly these directives: a `%x` conversion skips leading
whitespace, requires a leading hexadecimal digit, strips an `0x`/`0X`
prefix when a hexadecimal digit follows it (`simple_strtoull`), consumes
the maximal digit run, and stores the value truncated to `int` width; a
literal directive consumes exactly its character.  Scanning stops at the
first failing directive and the return value is the number of
conversions done.
-/

/-- Whitespace test of the C library (`isspace`), used by the kernel
`skip_spaces`. -/
def isSpace (c : Char) : Bool :=
  c = ' ' || c = '\t' || c = '\n' || c = '\x0b' || c = '\x0c' || c = '\r'

/-- Hexadecimal digit test (`isxdigit`). -/
def isHexDigit (c : Char) : Bool :=
  ('0' ≤ c && c ≤ '9') || ('a' ≤ c && c ≤ 'f') || ('A' ≤ c && c ≤ 'F')

/-- Numeric value of a hexadecimal digit. -/
def hexVal (c : Char) : Nat :=
  if '0' ≤ c && c ≤ '9' then c.toNat - '0'.toNat
  else if 'a' ≤ c && c ≤ 'f' then c.toNat - 'a'.toNat + 10
  else c.toNat - 'A'.toNat + 10

/-- Drop leading whitespace (kernel `skip_spaces`). -/
def skipSpaces : List Char → List Char
  | [] => []
  | c :: cs => if isSpace c then skipSpaces cs else c :: cs

/-- Consume a maximal run of hexadecimal digits, accumulating their value
(digit loop of `simple_strtoull` with base 16). -/
def takeHex : List Char → Nat → Nat × List Char
  | [], acc => (acc, [])
  | c :: cs, acc =>
    if isHexDigit c then takeHex cs (acc * 16 + hexVal c) else (acc, c :: cs)

/-- Remainder of a string after its maximal leading run of hexadecimal
digits. -/
def dropHex : List Char → List Char
  | [] => []
  | c :: cs => if isHexDigit c then dropHex cs else c :: cs

/-- Skip a leading `0x` or `0X` followed by a hexadecimal digit, as
`simple_strtoull` does before its digit loop. -/
def skip0x : List Char → List Char
  | c0 :: x :: d :: rest =>
    if c0 = '0' ∧ (x = 'x' ∨ x = 'X') ∧ isHexDigit d = true then d :: rest
    else c0 :: x :: d :: rest
  | s => s

/-- One `%x` conversion of the kernel `vsscanf`: returns the converted
value and the unconsumed input, or `none` when the conversion fails. -/
def scanHex (s : List Char) : Option (Nat × List Char) :=
  match skipSpaces s with
  | [] => none
  | c :: cs =>
    if isHexDigit c then some (takeHex (skip0x (c :: cs)) 0)
    else none

/-- A directive of the two formats used by the module: a `%x` conversion
or a literal character. -/
inductive Fmt where
  | hex
  | lit (c : Char)
  deriving DecidableEq, Repr

/-- Kernel `vsscanf` restricted to the directives above: the list of
converted values, in order, stopping at the first failing directive.
The `sscanf` return value is the length of this list.  Values are
truncated to the `int` width on assignment. -/
def vsscanf : List Fmt → List Char → List Nat
  | [], _ => []
  | Fmt.hex :: fs, s =>
    match scanHex s with
    | none => []
    | some (v, rest) => v % 2 ^ 32 :: vsscanf fs rest
  | Fmt.lit c :: fs, s =>
    match s with
    | [] => []
    | d :: rest => if d = c then vsscanf fs rest else []

/-- Directives of the format string "%x:%x:%x.%x". -/
def fmt4 : List Fmt :=
  [Fmt.hex, Fmt.lit ':', Fmt.hex, Fmt.lit ':', Fmt.hex, Fmt.lit '.', Fmt.hex]

/-- Directives of the format string "%x:%x.%x". -/
def fmt3 : List Fmt :=
  [Fmt.hex, Fmt.lit ':', Fmt.hex, Fmt.lit '.', Fmt.hex]

/-- Locator parsing of `p2pmmap_init`: try "%x:%x:%x.%x"; when fewer
than 4 fields convert, reset all fields to 0 and try "%x:%x.%x"; when
that converts fewer than 3 fields, fail.  Returns domain, bus, slot and
function on success. -/
def parseLocator (s : List Char) : Option (Nat × Nat × Nat × Nat) :=
  match vsscanf fmt4 s with
  | [d, b, sl, f] => some (d, b, sl, f)
  | _ =>
    match vsscanf fmt3 s with
    | [b, sl, f] => some (0, b, sl, f)
    | _ => none

/-!
## Spec-side locator grammar

The specification describes the accepted forms as the full-string
patterns "XX:XX:XX.X" and "XX:XX.X" with hexadecimal fields.  The
matcher below follows the spec words, not the code: every field is a
nonempty run of hexadecimal digits, separators must appear literally,
and the whole string must be consumed, with no whitespace or `0x`
prefix allowance.  It exists to be compared with the code-side
`parseLocator`.
-/

/-- Consume one nonempty hexadecimal field of the spec grammar. -/
def matchHexField : List Char → Option (List Char)
  | [] => none
  | c :: cs => if isHexDigit c then some (dropHex cs) else none

/-- Full-string matcher for a locator form given by directives. -/
def specMatch : List Fmt → List Char → Bool
  | [], s => s.isEmpty
  | Fmt.hex :: fs, s =>
    match matchHexField s with
    | some r => specMatch fs r
    | none => false
  | Fmt.lit c :: fs, s =>
    match s with
    | d :: r => d = c && specMatch fs r
    | [] => false

/-- Spec form "XX:XX:XX.X": four nonempty hexadecimal fields separated
by colon, colon, dot. -/
def specMatches4 (s : List Char) : Bool := specMatch fmt4 s

/-- Spec form "XX:XX.X": three nonempty hexadecimal fields separated by
colon, dot. -/
def specMatches3 (s : List Char) : Bool := specMatch fmt3 s

/-!
## `p2pmmap_init`

The embedding returns, besides the status, an account of the resource
effects of the call: the net number of device references held at return
(`pci_get_domain_bus_and_slot` takes one, `pci_dev_put` on a non-NULL
pointer drops one, `pci_dev_put(NULL)` is a no-op), whether device
lookup was reached, whether `pci_alloc_p2pmem` was called, whether an
allocation is outstanding at return, and whether the misc device ended
up registered.  Note two facts visible in the source: the `-ENOTSUPP`
return at the `pci_has_p2pmem` check happens before `pmm.pdev` is
assigned and performs no `pci_dev_put` at all, and the
`err_p2pmem_alloc_failed` path taken by the size check also runs before
`pmm.pdev` is assigned, so its `pci_dev_put(pmm.pdev)` puts NULL.
-/

/-- PCI_DEVFN(slot, fn): `((slot & 0x1f) << 3) | (fn & 0x07)`. -/
def PCI_DEVFN (slot func : Nat) : Nat := (slot % 32) * 8 + func % 8

/-- Environment of `p2pmmap_init`: module parameters and the behavior of
the platform primitives it calls.  `alloc_result` is the address
returned by `pci_alloc_p2pmem` (0 models NULL, that is allocation
failure); `misc_ret` is the return value of `misc_register`. -/
structure InitEnv where
  target_pci_dev : Option (List Char)
  p2pmem_size : Nat
  dev_exists : Nat → Nat → Nat → Bool
  has_p2pmem : Bool
  alloc_result : Nat
  misc_ret : Int

/-- Outcome of `p2pmmap_init`: status and resource accounting. -/
structure InitResult where
  status : Int
  devRefs : Int
  lookedUp : Bool
  allocAttempted : Bool
  allocOutstanding : Bool
  registered : Bool
  pmm : Pmm

/-- Embedding of `p2pmmap_init`. -/
def p2pmmap_init (env : InitEnv) : InitResult :=
  let pmm0 : Pmm := { pdev := none, p2pmem := 0, size := 0, opened := 0 }
  match env.target_pci_dev with
  | none =>
    { status := -EINVAL, devRefs := 0, lookedUp := false, allocAttempted := false,
      allocOutstanding := false, registered := false, pmm := pmm0 }
  | some s =>
    match parseLocator s with
    | none =>
      { status := -EINVAL, devRefs := 0, lookedUp := false, allocAttempted := false,
        allocOutstanding := false, registered := false, pmm := pmm0 }
    | some (domain, bus, slot, func) =>
      let devfn := PCI_DEVFN slot func
      if ¬ env.dev_exists domain bus devfn then
        { status := -EINVAL, devRefs := 0, lookedUp := true, allocAttempted := false,
          allocOutstanding := false, registered := false, pmm := pmm0 }
      else if ¬ env.has_p2pmem then
        { status := -ENOTSUPP, devRefs := 1, lookedUp := true, allocAttempted := false,
          allocOutstanding := false, registered := false, pmm := pmm0 }
      else if env.p2pmem_size < PAGE_SIZE ∨ env.p2pmem_size % PAGE_SIZE ≠ 0 then
        { status := -EINVAL, devRefs := 1, lookedUp := true, allocAttempted := false,
          allocOutstanding := false, registered := false, pmm := pmm0 }
      else
        let pmm1 : Pmm := { pdev := some (domain, bus, devfn), p2pmem := env.alloc_result,
                            size := env.p2pmem_size, opened := 0 }
        if env.alloc_result = 0 then
          { status := -EINVAL, devRefs := 0, lookedUp := true, allocAttempted := true,
            allocOutstanding := false, registered := false, pmm := pmm1 }
        else if env.misc_ret ≠ 0 then
          { status := env.misc_ret, devRefs := 0, lookedUp := true, allocAttempted := true,
            allocOutstanding := true, registered := false, pmm := pmm1 }
        else
          { status := 0, devRefs := 1, lookedUp := true, allocAttempted := true,
            allocOutstanding := true, registered := true, pmm := pmm1 }

/-!
## Interleaving model of two concurrent `p2pmmap_open` calls

In the source, `atomic_read(&pmm.opened)` and `atomic_inc(&pmm.opened)`
are each one atomic operation, but nothing makes the pair indivisible.
The model below runs two threads through `p2pmmap_open` one atomic
micro-step at a time under an explicit schedule.
-/

/-- Progress of one thread through `p2pmmap_open`: not yet started,
`atomic_read` done with the value it observed, or returned. -/
inductive OpenPhase where
  | start
  | readDone (v : Int)
  | done (ret : Int)
  deriving DecidableEq, Repr

/-- One micro-step of `p2pmmap_open` for a thread in the given phase on
counter `c`: `start` performs the `atomic_read`; `readDone v` performs
the branch on the value read and, when it was 0, the `atomic_inc`. -/
def openStep (c : Int) : OpenPhase → OpenPhase × Int
  | OpenPhase.start => (OpenPhase.readDone c, c)
  | OpenPhase.readDone v =>
    if v ≠ 0 then (OpenPhase.done (-EBUSY), c)
    else (OpenPhase.done 0, c + 1)
  | OpenPhase.done r => (OpenPhase.done r, c)

/-- Shared counter plus the phase of each of two threads running
`p2pmmap_open`. -/
structure TwoOpens where
  opened : Int
  t1 : OpenPhase
  t2 : OpenPhase
  deriving DecidableEq, Repr

/-- Run a schedule: `false` steps thread 1, `true` steps thread 2. -/
def runSchedule : List Bool → TwoOpens → TwoOpens
  | [], st => st
  | b :: bs, st =>
    if b then
      let r := openStep st.opened st.t2
      runSchedule bs { opened := r.2, t1 := st.t1, t2 := r.1 }
    else
      let r := openStep st.opened st.t1
      runSchedule bs { opened := r.2, t1 := r.1, t2 := st.t2 }

/-!
## Derived notions and concrete instances used by the theorems
-/

/-- Page frame number computed by the fault handler for page `p`:
`virt_to_phys(pmm.p2pmem + (p << PAGE_SHIFT)) >> PAGE_SHIFT`. -/
def faultPfn (pf : Platform) (w : FaultWorld) (p : Nat) : Nat :=
  pf.virt_to_phys ((w.pmm.p2pmem + (p * PAGE_SIZE) % U64) % U64) / PAGE_SIZE

/-- Number of `%x` directives of a format. -/
def hexCount : List Fmt → Nat
  | [] => 0
  | Fmt.hex :: fs => hexCount fs + 1
  | Fmt.lit _ :: fs => hexCount fs

/-- A format does not start with a `%x` directive. -/
def sepStartOk : List Fmt → Bool
  | Fmt.hex :: _ => false
  | _ => true

/-- Well-formedness of a locator format: every literal is a colon or a
dot, and no two `%x` directives are adjacent.  Both module formats
satisfy it. -/
def fmtWF : List Fmt → Bool
  | [] => true
  | Fmt.hex :: fs => sepStartOk fs && fmtWF fs
  | Fmt.lit c :: fs => (c = ':' || c = '.') && fmtWF fs

/-- The head of a remainder list, when present, is a separator. -/
def sepHead : List Char → Prop
  | [] => True
  | c :: _ => c = ':' ∨ c = '.'

/-- The locator string "00:01.0". -/
def locOk : List Char := ['0', '0', ':', '0', '1', '.', '0']

/-- A locator with a valid three-component prefix followed by trailing
characters: "12:34.5x". -/
def locBad : List Char := ['1', '2', ':', '3', '4', '.', '5', 'x']

/-- Baseline init environment: locator "00:01.0", size 4096, a present
device with p2pmem support, a successful allocator and a successful
registration. -/
def envOk : InitEnv :=
  { target_pci_dev := some locOk, p2pmem_size := 4096,
    dev_exists := fun _ _ _ => true, has_p2pmem := true,
    alloc_result := 4096, misc_ret := 0 }

/-- Environment whose locator parameter is absent. -/
def envMissing : InitEnv := { envOk with target_pci_dev := none }

/-- Environment with an unparsable locator. -/
def envMalformed : InitEnv := { envOk with target_pci_dev := some ['b', 'a', 'd'] }

/-- Environment whose locator parses but no device is present. -/
def envNotFound : InitEnv := { envOk with dev_exists := fun _ _ _ => false }

/-- Environment whose device lacks p2pmem support. -/
def envNoSupp : InitEnv := { envOk with has_p2pmem := false }

/-- Environment with a size that is not a multiple of the page size. -/
def envBadSize : InitEnv := { envOk with p2pmem_size := 100 }

/-- Environment whose allocator fails. -/
def envAllocFail : InitEnv := { envOk with alloc_result := 0 }

/-- Environment whose misc-device registration returns `m`. -/
def envRegFail (m : Int) : InitEnv := { envOk with misc_ret := m }

/-- Environment with the trailing-garbage locator `locBad`. -/
def envBadLoc : InitEnv := { envOk with target_pci_dev := some locBad }

/-- Concrete platform for witnesses: identity translation, every frame
valid. -/
def pfId : Platform := { virt_to_phys := fun v => v, pfn_valid := fun _ => true }

/-- Concrete fault world for witnesses: the region at virtual address
4096, size 4096, an open session. -/
def w0 : FaultWorld :=
  { pmm := { pdev := some (0, 0, 8), p2pmem := 4096, size := 4096, opened := 1 },
    refcount := fun _ => 0, vmfPage := none }

/-- Initial state of two concurrent open calls on a closed device. -/
def raceStart : TwoOpens :=
  { opened := 0, t1 := OpenPhase.start, t2 := OpenPhase.start }

/-!
# Theorems

Helper lemmas about the scanner come first, then one theorem (with a
counterexample and a witness where applicable) per specification claim.
-/

/-- A hexadecimal digit is not whitespace. -/
theorem hex_not_space (c : Char) (h : isHexDigit c = true) : isSpace c = false := by
  by_contra hs
  rw [Bool.not_eq_false] at hs
  unfold isSpace at hs
  simp only [Bool.or_eq_true, decide_eq_true_eq] at hs
  rcases hs with ((((h1 | h1) | h1) | h1) | h1) | h1 <;> subst h1 <;> exact absurd h (by decide)

/-- The remainder component of `takeHex` is `dropHex`. -/
theorem takeHex_snd (cs : List Char) : ∀ acc, (takeHex cs acc).2 = dropHex cs := by
  induction cs with
  | nil => intro acc; rfl
  | cons c cs ih =>
    intro acc
    unfold takeHex dropHex
    by_cases hc : isHexDigit c = true <;> simp [hc, ih]

/-- Dropping the digit run of a string that starts with a digit drops
the rest of the run. -/
theorem dropHex_cons_hex (c : Char) (cs : List Char) (h : isHexDigit c = true) :
    dropHex (c :: cs) = dropHex cs := by
  simp [dropHex, h]

/-- When the character after the leading digit run is a separator, or
the string ends at the run, no `0x` prefix is stripped. -/
theorem skip0x_eq_self (c : Char) (cs : List Char) (_hc : isHexDigit c = true)
    (hsep : sepHead (dropHex cs)) : skip0x (c :: cs) = c :: cs := by
  cases cs with
  | nil => rfl
  | cons x cs2 =>
    cases cs2 with
    | nil => rfl
    | cons d rest =>
      show (if c = '0' ∧ (x = 'x' ∨ x = 'X') ∧ isHexDigit d = true then d :: rest
            else c :: x :: d :: rest) = c :: x :: d :: rest
      rw [if_neg]
      rintro ⟨-, hx, -⟩
      have hxh : isHexDigit x = false := by
        rcases hx with h | h <;> subst h <;> decide
      have hdrop : dropHex (x :: d :: rest) = x :: d :: rest := by
        simp [dropHex, hxh]
      rw [hdrop] at hsep
      have hsep2 : x = ':' ∨ x = '.' := hsep
      rcases hsep2 with h2 | h2 <;> rcases hx with h3 | h3 <;> rw [h3] at h2 <;>
        exact absurd h2 (by decide)

/-- A `%x` conversion on a string that starts with a digit run followed
by a separator (or by nothing) consumes exactly the run. -/
theorem scanHex_hexRun (c : Char) (cs : List Char) (hc : isHexDigit c = true)
    (hsep : sepHead (dropHex cs)) :
    scanHex (c :: cs) = some ((takeHex (c :: cs) 0).1, dropHex cs) := by
  have hsp : isSpace c = false := hex_not_space c hc
  have hskip : skipSpaces (c :: cs) = c :: cs := by simp [skipSpaces, hsp]
  have hstrip := skip0x_eq_self c cs hc hsep
  have hsnd : (takeHex (c :: cs) 0).2 = dropHex cs := by
    rw [takeHex_snd, dropHex_cons_hex c cs hc]
  simp only [scanHex, hskip, hc, if_true, hstrip]
  rw [← hsnd]

/-- Every string that fully matches a well-formed locator format has
all `%x` fields of the format converted by `vsscanf`. -/
theorem vsscanf_length_of_specMatch :
    ∀ fs : List Fmt, fmtWF fs = true → ∀ s : List Char, specMatch fs s = true →
      (vsscanf fs s).length = hexCount fs := by
  intro fs
  induction fs with
  | nil => intro _ s _; rfl
  | cons f fs ih =>
    cases f with
    | hex =>
      intro hwf s h
      obtain ⟨hsep0, hwf2⟩ : sepStartOk fs = true ∧ fmtWF fs = true := by
        simpa [fmtWF, Bool.and_eq_true] using hwf
      cases s with
      | nil => simp [specMatch, matchHexField] at h
      | cons c cs =>
        by_cases hc : isHexDigit c = true
        · have h2 : specMatch fs (dropHex cs) = true := by
            simpa [specMatch, matchHexField, hc] using h
          have hsep : sepHead (dropHex cs) := by
            cases fs with
            | nil =>
              have he : dropHex cs = [] := by
                simpa [specMatch] using h2
              rw [he]; trivial
            | cons f2 fs2 =>
              cases f2 with
              | hex => simp [sepStartOk] at hsep0
              | lit c2 =>
                obtain ⟨hc2, -⟩ : (c2 = ':' ∨ c2 = '.') ∧ fmtWF fs2 = true := by
                  simpa [fmtWF, Bool.and_eq_true, Bool.or_eq_true, decide_eq_true_eq]
                    using hwf2
                cases hr : dropHex cs with
                | nil => rw [hr] at h2; simp [specMatch] at h2
                | cons d r2 =>
                  rw [hr] at h2
                  obtain ⟨hd, -⟩ : d = c2 ∧ specMatch fs2 r2 = true := by
                    simpa [specMatch, Bool.and_eq_true, decide_eq_true_eq] using h2
                  show d = ':' ∨ d = '.'
                  rw [hd]; exact hc2
          have hscan := scanHex_hexRun c cs hc hsep
          simp only [vsscanf, hscan, List.length_cons, hexCount]
          rw [ih hwf2 (dropHex cs) h2]
        · simp [specMatch, matchHexField, hc] at h
    | lit c =>
      intro hwf s h
      obtain ⟨-, hwf2⟩ : (c = ':' ∨ c = '.') ∧ fmtWF fs = true := by
        simpa [fmtWF, Bool.and_eq_true, Bool.or_eq_true, decide_eq_true_eq] using hwf
      cases s with
      | nil => simp [specMatch] at h
      | cons d r =>
        obtain ⟨hd, h2⟩ : d = c ∧ specMatch fs r = true := by
          simpa [specMatch, Bool.and_eq_true, decide_eq_true_eq] using h
        simp only [vsscanf, hd, if_pos, hexCount]
        exact ih hwf2 r h2

/-- A string on which the three-field scan converts 3 fields parses. -/
theorem parseLocator_isSome_of_fmt3 (s : List Char)
    (h3 : (vsscanf fmt3 s).length = 3) : (parseLocator s).isSome = true := by
  unfold parseLocator
  split
  · rfl
  · cases l1 : vsscanf fmt3 s with
    | nil => rw [l1] at h3; simp at h3
    | cons b t1 =>
      cases t1 with
      | nil => rw [l1] at h3; simp at h3
      | cons sl t2 =>
        cases t2 with
        | nil => rw [l1] at h3; simp at h3
        | cons f t3 =>
          cases t3 with
          | nil => rfl
          | cons g t4 => rw [l1] at h3; simp at h3

/-- A string on which the four-field scan converts 4 fields parses. -/
theorem parseLocator_isSome_of_fmt4 (s : List Char)
    (h4 : (vsscanf fmt4 s).length = 4) : (parseLocator s).isSome = true := by
  unfold parseLocator
  split
  · rfl
  · next hne =>
    exfalso
    cases l1 : vsscanf fmt4 s with
    | nil => rw [l1] at h4; simp at h4
    | cons d t1 =>
      cases t1 with
      | nil => rw [l1] at h4; simp at h4
      | cons b t2 =>
        cases t2 with
        | nil => rw [l1] at h4; simp at h4
        | cons sl t3 =>
          cases t3 with
          | nil => rw [l1] at h4; simp at h4
          | cons f t4 =>
            cases t4 with
            | nil => exact hne d b sl f l1
            | cons g t5 => rw [l1] at h4; simp at h4

/-- C1 (code_bug evidence): the init error paths do not unwind in
reverse order.  When the resolved device lacks p2pmem support, init
returns `-ENOTSUPP` while still holding the device reference; when the
size is invalid after resolution succeeded, init returns `-EINVAL` and
its `pci_dev_put(pmm.pdev)` puts a NULL pointer, again leaking the
reference; when registration fails after a successful reservation, the
device reference is dropped but the reserved region is left allocated. -/
theorem c1_init_error_paths_leak :
    ((p2pmmap_init envNoSupp).status = -ENOTSUPP ∧
      (p2pmmap_init envNoSupp).devRefs = 1) ∧
    ((p2pmmap_init envBadSize).status = -EINVAL ∧
      (p2pmmap_init envBadSize).devRefs = 1) ∧
    ((p2pmmap_init (envRegFail (-17))).status = -17 ∧
      (p2pmmap_init (envRegFail (-17))).devRefs = 0 ∧
      (p2pmmap_init (envRegFail (-17))).allocOutstanding = true) := by
  decide

/-- C2 (counterexample): a close call without a prior open does not
leave the session state Closed (the counter becomes -1, not 0), and a
subsequent open fails with `-EBUSY` instead of succeeding. -/
theorem c2_redundant_close_counterexample :
    (p2pmmap_release 0).1 = 0 ∧
    (p2pmmap_release 0).2 ≠ 0 ∧
    (p2pmmap_open (p2pmmap_release 0).2).1 = -EBUSY ∧
    (p2pmmap_open (p2pmmap_release 0).2).1 ≠ 0 := by
  decide

/-- C2 (amended): close always returns success and decrements the open
counter; after a close matching a successful open (counter 1) the state
is back to Closed and a subsequent open succeeds, but after a redundant
close from the Closed state the counter is negative and a subsequent
open fails with `-EBUSY`. -/
theorem c2_release_decrements (c : Int) :
    (p2pmmap_release c).1 = 0 ∧
    (p2pmmap_release c).2 = c - 1 ∧
    (c = 1 → (p2pmmap_open (p2pmmap_release c).2).1 = 0) ∧
    (c = 0 → (p2pmmap_open (p2pmmap_release c).2).1 = -EBUSY) := by
  refine ⟨rfl, rfl, ?_, ?_⟩ <;> intro hc <;> subst hc <;> decide

/-- C2 witness: the amended close behavior at the concrete states 1 and
0. -/
theorem c2_release_decrements_witness :
    (p2pmmap_open (p2pmmap_release 1).2).1 = 0 ∧
    (p2pmmap_open (p2pmmap_release 0).2).1 = -EBUSY :=
  ⟨(c2_release_decrements 1).2.2.1 rfl, (c2_release_decrements 0).2.2.2 rfl⟩

/-- C5: under sequential invocation open succeeds exactly when the
counter is 0 (Closed) and moves it to 1 (Open); open on any nonzero
state fails with `-EBUSY` and changes nothing; after the matching close
open succeeds again; and any number of sequential open/close cycles
from the initial Closed state all succeed. -/
theorem c5_open_close_protocol (c : Int) :
    ((p2pmmap_open c).1 = 0 ↔ c = 0) ∧
    p2pmmap_open 0 = (0, 1) ∧
    (c ≠ 0 → p2pmmap_open c = (-EBUSY, c)) ∧
    (p2pmmap_open (p2pmmap_release 1).2).1 = 0 ∧
    (∀ n : Nat, openCloseCycles n 0 = (0, true)) := by
  refine ⟨?_, by decide, ?_, by decide, ?_⟩
  · by_cases hc : c = 0
    · subst hc; simp [p2pmmap_open]
    · simp only [p2pmmap_open, if_pos hc, EBUSY]
      constructor
      · intro h; exact absurd h (by decide)
      · intro h; exact absurd h hc
  · intro hc; simp [p2pmmap_open, hc]
  · intro n
    induction n with
    | zero => rfl
    | succ k ih => simp [openCloseCycles, p2pmmap_open, p2pmmap_release, ih]

/-- C5 witness: open on the concrete Open-like state 2 fails without a
state change, and three sequential open/close cycles all succeed. -/
theorem c5_open_close_protocol_witness :
    p2pmmap_open 2 = (-EBUSY, 2) ∧ openCloseCycles 3 0 = (0, true) :=
  ⟨(c5_open_close_protocol 2).2.2.1 (by decide), (c5_open_close_protocol 2).2.2.2.2 3⟩

/-- C9 (code_bug evidence): the check and the increment of
`p2pmmap_open` are separate atomic operations, so under the interleaving
read1-read2-inc1-inc2 both concurrent open calls observe the counter 0,
both return success and the counter ends at 2; only when one call
completes before the other reads does the second fail with `-EBUSY`. -/
theorem c9_open_race :
    (runSchedule [false, true, false, true] raceStart).t1 = OpenPhase.done 0 ∧
    (runSchedule [false, true, false, true] raceStart).t2 = OpenPhase.done 0 ∧
    (runSchedule [false, true, false, true] raceStart).opened = 2 ∧
    (runSchedule [false, false, true, true] raceStart).t2 = OpenPhase.done (-EBUSY) := by
  decide

/-- C10: the fault handler never changes the module state; on either
failure branch it changes nothing at all; on success its only effects
are the increment of the returned frame reference count and the store
of the frame into the fault record. -/
theorem c10_fault_frame_condition (pf : Platform) (w : FaultWorld) (p : Nat) :
    (p2pmmap_mem_fault pf w p).2.pmm = w.pmm ∧
    ((p2pmmap_mem_fault pf w p).1 ≠ 0 → (p2pmmap_mem_fault pf w p).2 = w) ∧
    ((p2pmmap_mem_fault pf w p).1 = 0 →
      (p2pmmap_mem_fault pf w p).2.vmfPage = some (faultPfn pf w p) ∧
      ∀ q, (p2pmmap_mem_fault pf w p).2.refcount q =
        if q = faultPfn pf w p then w.refcount q + 1 else w.refcount q) := by
  by_cases hpa : pf.virt_to_phys ((w.pmm.p2pmem + p * PAGE_SIZE) % U64) = 0
  · simp [p2pmmap_mem_fault, hpa, VM_FAULT_SIGBUS]
  · by_cases hv : pf.pfn_valid
        (pf.virt_to_phys ((w.pmm.p2pmem + p * PAGE_SIZE) % U64) / PAGE_SIZE) = true
    · simp [p2pmmap_mem_fault, hpa, hv, faultPfn]
    · rw [Bool.not_eq_true] at hv
      simp [p2pmmap_mem_fault, hpa, hv, VM_FAULT_SIGBUS]

/-- C10 witness: the frame condition applied to a concrete successful
fault. -/
theorem c10_fault_frame_condition_witness :
    (p2pmmap_mem_fault pfId w0 0).2.vmfPage = some (faultPfn pfId w0 0) ∧
    (p2pmmap_mem_fault pfId w0 0).2.pmm = w0.pmm :=
  ⟨((c10_fault_frame_condition pfId w0 0).2.2 (by decide)).1,
   (c10_fault_frame_condition pfId w0 0).1⟩

/-- C3 (counterexample): with 64-bit wrap-around a request whose true
byte extent exceeds the region size is accepted: page offset 2^52 - 1
and length 8192 on a 4096-byte region give off + len = 2^64 + 4096,
which wraps to 4096, so the bounds check passes and the fault-handler
operations are installed although the mathematical sum exceeds the
region size. -/
theorem c3_mmap_overflow_counterexample :
    (p2pmmap_mmap 4096 (2 ^ 52 - 1) 8192).status = 0 ∧
    (p2pmmap_mmap 4096 (2 ^ 52 - 1) 8192).vm_ops_set = true ∧
    (2 ^ 52 - 1) * PAGE_SIZE + 8192 > 4096 := by
  decide

/-- C3 (amended): when the byte extent does not overflow 64 bits, the
mapping request succeeds exactly when offsetInPages * pageSize + length
is at most the region size (which covers both boundary cases), and on
failure the status is `-ENOMEM` and the fault-handler operations are
not installed. -/
theorem c3_mmap_bounds (size vm_pgoff vm_len : Nat)
    (h : vm_pgoff * PAGE_SIZE + vm_len < U64) :
    ((p2pmmap_mmap size vm_pgoff vm_len).status = 0 ↔
      vm_pgoff * PAGE_SIZE + vm_len ≤ size) ∧
    ((p2pmmap_mmap size vm_pgoff vm_len).vm_ops_set = true ↔
      vm_pgoff * PAGE_SIZE + vm_len ≤ size) ∧
    (vm_pgoff * PAGE_SIZE + vm_len > size →
      (p2pmmap_mmap size vm_pgoff vm_len).status = -ENOMEM ∧
      (p2pmmap_mmap size vm_pgoff vm_len).vm_ops_set = false) := by
  have h1 : (vm_pgoff * PAGE_SIZE) % U64 = vm_pgoff * PAGE_SIZE :=
    Nat.mod_eq_of_lt (lt_of_le_of_lt (Nat.le_add_right _ _) h)
  have h2 : (vm_pgoff * PAGE_SIZE + vm_len) % U64 = vm_pgoff * PAGE_SIZE + vm_len :=
    Nat.mod_eq_of_lt h
  simp only [p2pmmap_mmap, h1, h2]
  by_cases hle : vm_pgoff * PAGE_SIZE + vm_len ≤ size
  · rw [if_neg (by omega)]
    exact ⟨by simp [hle], by simp [hle], fun hgt => absurd hle (by omega)⟩
  · rw [if_pos (by omega)]
    refine ⟨?_, ?_, fun _ => ⟨rfl, rfl⟩⟩
    · constructor
      · intro hE; exact absurd hE (by decide)
      · intro hle2; exact absurd hle2 hle
    · constructor
      · intro hF; exact absurd hF (by decide)
      · intro hle2; exact absurd hle2 hle

/-- C3 witness: the amended bounds at the boundary inputs, offset 0 with
length equal to the region size and length one past it. -/
theorem c3_mmap_bounds_witness :
    (p2pmmap_mmap 4096 0 4096).status = 0 ∧
    (p2pmmap_mmap 4096 0 4097).status = -ENOMEM ∧
    (p2pmmap_mmap 4096 0 4097).vm_ops_set = false :=
  ⟨(c3_mmap_bounds 4096 0 4096 (by decide)).1.mpr (by decide),
   ((c3_mmap_bounds 4096 0 4097 (by decide)).2.2 (by decide)).1,
   ((c3_mmap_bounds 4096 0 4097 (by decide)).2.2 (by decide)).2⟩

/-- C4: a successful fault on page `k` of a granted mapping with base
page offset `basePages` installs the physical frame backing byte offset
`basePages * pageSize + k * pageSize` of the reserved region, and a
second fault on the same page of the same mapping returns the same
frame. -/
theorem c4_fault_resolves_offset (pf : Platform) (w : FaultWorld)
    (basePages k vm_len : Nat)
    (_hmap : (p2pmmap_mmap w.pmm.size basePages vm_len).status = 0)
    (_hk : (k + 1) * PAGE_SIZE ≤ vm_len)
    (hok : (p2pmmap_mem_fault pf w (basePages + k)).1 = 0) :
    (p2pmmap_mem_fault pf w (basePages + k)).2.vmfPage =
      some (regionFrame pf w.pmm.p2pmem (basePages * PAGE_SIZE + k * PAGE_SIZE)) ∧
    (p2pmmap_mem_fault pf ((p2pmmap_mem_fault pf w (basePages + k)).2)
        (basePages + k)).2.vmfPage =
      (p2pmmap_mem_fault pf w (basePages + k)).2.vmfPage := by
  have haddr : (w.pmm.p2pmem + (basePages + k) * PAGE_SIZE) % U64
      = (w.pmm.p2pmem + (basePages * PAGE_SIZE + k * PAGE_SIZE)) % U64 := by
    rw [Nat.add_mul]
  by_cases hpa : pf.virt_to_phys ((w.pmm.p2pmem + (basePages + k) * PAGE_SIZE) % U64) = 0
  · exfalso
    simp [p2pmmap_mem_fault, hpa, VM_FAULT_SIGBUS] at hok
  · by_cases hv : pf.pfn_valid
        (pf.virt_to_phys ((w.pmm.p2pmem + (basePages + k) * PAGE_SIZE) % U64) / PAGE_SIZE) = true
    · constructor
      · simp only [p2pmmap_mem_fault, regionFrame, ← haddr]
        simp [hpa, hv]
      · simp [p2pmmap_mem_fault, hpa, hv]
    · exfalso
      rw [Bool.not_eq_true] at hv
      simp [p2pmmap_mem_fault, hpa, hv, VM_FAULT_SIGBUS] at hok

/-- C4 witness: the fault resolution applied to a concrete granted
mapping of one page at base page offset 0. -/
theorem c4_fault_resolves_offset_witness :
    (p2pmmap_mem_fault pfId w0 (0 + 0)).2.vmfPage =
      some (regionFrame pfId w0.pmm.p2pmem (0 * PAGE_SIZE + 0 * PAGE_SIZE)) :=
  (c4_fault_resolves_offset pfId w0 0 0 4096 (by decide) (by decide) (by decide)).1

/-- C6: once the locator resolved to a present device with p2pmem
support, a requested size that is zero, below the page size or not a
multiple of the page size makes init fail with `-EINVAL` before any
allocation is attempted, leaving none outstanding; the allocator is
reached exactly when the size is a strictly positive multiple of the
page size. -/
theorem c6_size_validation (env : InitEnv) (s : List Char) (domain bus slot func : Nat)
    (htgt : env.target_pci_dev = some s)
    (hparse : parseLocator s = some (domain, bus, slot, func))
    (hdev : env.dev_exists domain bus (PCI_DEVFN slot func) = true)
    (hmem : env.has_p2pmem = true) :
    ((env.p2pmem_size = 0 ∨ env.p2pmem_size < PAGE_SIZE ∨
        env.p2pmem_size % PAGE_SIZE ≠ 0) →
      (p2pmmap_init env).status = -EINVAL ∧
      (p2pmmap_init env).allocAttempted = false ∧
      (p2pmmap_init env).allocOutstanding = false) ∧
    ((p2pmmap_init env).allocAttempted = true ↔
      0 < env.p2pmem_size ∧ env.p2pmem_size % PAGE_SIZE = 0) := by
  have hps : PAGE_SIZE = 4096 := rfl
  simp only [p2pmmap_init, htgt, hparse, hdev, hmem, eq_self_iff_true, not_true, if_false]
  constructor
  · intro hcl
    have hsz : env.p2pmem_size < PAGE_SIZE ∨ env.p2pmem_size % PAGE_SIZE ≠ 0 := by
      rcases hcl with hc | hc | hc
      · left; rw [hc]; decide
      · left; exact hc
      · right; exact hc
    rw [if_pos hsz]
    exact ⟨rfl, rfl, rfl⟩
  · by_cases hsz : env.p2pmem_size < PAGE_SIZE ∨ env.p2pmem_size % PAGE_SIZE ≠ 0
    · rw [if_pos hsz]
      constructor
      · intro hF; exact absurd hF (by decide)
      · rintro ⟨hpos, hmod⟩
        exfalso
        have hdvd : PAGE_SIZE ≤ env.p2pmem_size :=
          Nat.le_of_dvd hpos (Nat.dvd_of_mod_eq_zero hmod)
        rcases hsz with hlt | hne
        · omega
        · exact hne hmod
    · rw [if_neg hsz]
      push_neg at hsz
      constructor
      · intro _
        refine ⟨?_, hsz.2⟩
        have := hsz.1
        omega
      · intro _
        split_ifs <;> rfl

/-- C6 witness: the size validation applied to the concrete environment
with size 100. -/
theorem c6_size_validation_witness :
    (p2pmmap_init envBadSize).status = -EINVAL ∧
    (p2pmmap_init envBadSize).allocAttempted = false ∧
    (p2pmmap_init envBadSize).allocOutstanding = false :=
  (c6_size_validation envBadSize locOk 0 0 1 0 rfl (by decide) rfl rfl).1 (by decide)

/-- C7 (counterexample): two different startup failure kinds share one
status value: a missing locator (device lookup never reached) and an
invalid size (lookup reached, allocation not attempted) both return
`-EINVAL`, so the eight outcomes are not pairwise distinct. -/
theorem c7_statuses_not_distinct :
    (p2pmmap_init envMissing).status = (p2pmmap_init envBadSize).status ∧
    (p2pmmap_init envMissing).status = -EINVAL ∧
    (p2pmmap_init envMissing).lookedUp = false ∧
    (p2pmmap_init envBadSize).lookedUp = true ∧
    (p2pmmap_init envBadSize).allocAttempted = false := by
  decide

/-- C7 (amended): success returns 0 and every failure a negative
status, but the failure statuses are not all distinct: missing locator,
malformed locator, device not found, invalid size and allocation
failure all return `-EINVAL`; a device without p2pmem support returns
`-ENOTSUPP`; a registration failure returns the negative status of the
framework. -/
theorem c7_exit_statuses :
    (p2pmmap_init envOk).status = 0 ∧
    (p2pmmap_init envMissing).status = -EINVAL ∧
    (p2pmmap_init envMalformed).status = -EINVAL ∧
    (p2pmmap_init envNotFound).status = -EINVAL ∧
    (p2pmmap_init envNoSupp).status = -ENOTSUPP ∧
    (p2pmmap_init envBadSize).status = -EINVAL ∧
    (p2pmmap_init envAllocFail).status = -EINVAL ∧
    (∀ m : Int, m < 0 → (p2pmmap_init (envRegFail m)).status = m) := by
  refine ⟨by decide, by decide, by decide, by decide, by decide, by decide, by decide, ?_⟩
  intro m hm
  have hp : parseLocator locOk = some (0, 0, 1, 0) := by decide
  have hm0 : m ≠ 0 := by omega
  simp [p2pmmap_init, envRegFail, envOk, hp, hm0, PAGE_SIZE, PAGE_SHIFT]

/-- C7 witness: the registration-failure clause applied at the concrete
status -17. -/
theorem c7_exit_statuses_witness :
    (p2pmmap_init (envRegFail (-17))).status = -17 ∧
    (p2pmmap_init envOk).status = 0 :=
  ⟨c7_exit_statuses.2.2.2.2.2.2.2 (-17) (by decide), c7_exit_statuses.1⟩

/-- C8 (counterexample): the locator "12:34.5x" matches neither
accepted pattern, yet the scans accept its three-field prefix and init
reaches device lookup (and here initializes successfully), refuting the
claim that only pattern-matching strings can reach device lookup. -/
theorem c8_trailing_garbage_counterexample :
    specMatches4 locBad = false ∧ specMatches3 locBad = false ∧
    (p2pmmap_init envBadLoc).lookedUp = true ∧
    (p2pmmap_init envBadLoc).status = 0 := by
  decide

/-- C8 (amended): a locator on which both scans convert too few fields
makes init fail with `-EINVAL`, with device lookup never reached and no
device reference taken; every string fully matching one of the two
accepted patterns parses and reaches device lookup; but the scans only
match a prefix, so some strings matching neither pattern also get
through (see the counterexample). -/
theorem c8_locator_parsing :
    (∀ env s, env.target_pci_dev = some s → parseLocator s = none →
      (p2pmmap_init env).status = -EINVAL ∧
      (p2pmmap_init env).lookedUp = false ∧
      (p2pmmap_init env).devRefs = 0) ∧
    (∀ s, specMatches4 s = true ∨ specMatches3 s = true →
      (parseLocator s).isSome = true) := by
  constructor
  · intro env s htgt hp
    simp [p2pmmap_init, htgt, hp]
  · intro s hs
    rcases hs with h | h
    · exact parseLocator_isSome_of_fmt4 s
        ((vsscanf_length_of_specMatch fmt4 (by decide) s h).trans (by decide))
    · exact parseLocator_isSome_of_fmt3 s
        ((vsscanf_length_of_specMatch fmt3 (by decide) s h).trans (by decide))

/-- C8 witness: the malformed branch at the concrete locator "bad" and
the accepting branch at the concrete locator "00:01.0". -/
theorem c8_locator_parsing_witness :
    (p2pmmap_init envMalformed).status = -EINVAL ∧
    (parseLocator locOk).isSome = true :=
  ⟨(c8_locator_parsing.1 envMalformed ['b', 'a', 'd'] rfl (by decide)).1,
   c8_locator_parsing.2 locOk (Or.inr (by decide))⟩

end P2pmmap
